import Mathlib

/-!
Shallow embedding of `src/processes/processes.go` from
snap-plugin-collector-processes: the metric catalog, the process-metric
extractor `setProcMetrics`, the discovery function `GetMetricTypes` and the
resolution function `CollectMetrics`, together with theorems settling the
specification claims.

Go maps of the source are embedded as association lists in source order
(`List.lookup` reads the first matching key, mirroring Go map lookup; Go map
iteration order is only observed where at most one entry can match, so a
fixed order is a faithful determinization).  Go slice indexing is embedded
with `List.get?`; an out-of-range access — a runtime panic in Go — surfaces
as the dedicated error value `CollectError.outOfRange`.  The wall clock
`time.Now()` is an explicit `now : Nat` argument.
-/

/-- Values stored in the `map[string]interface{}` produced by
`setProcMetrics` and in the `Data_` field of a metric: the Go code stores
unsigned integers (embedded as `Nat`) and strings. -/
inductive MetricValue where
  | num (n : Nat)
  | str (s : String)
deriving DecidableEq

/-- Go struct `label` (processes.go:319-322). -/
structure label where
  description : String
  unit : String
deriving DecidableEq

/-- Go map `metricNames` (processes.go:50-111), in source order. -/
def metricNamesList : List (String × label) :=
  [("ps_vm", ⟨"Virtual memory size in bytes", "B"⟩),
   ("ps_rss", ⟨"Resident Set Size: number of pages the process has in real memory", ""⟩),
   ("ps_data", ⟨"Size of data segments", "B"⟩),
   ("ps_code", ⟨"Size of text segment", "B"⟩),
   ("ps_stacksize", ⟨"Stack size", "B"⟩),
   ("ps_cputime_user", ⟨"Amount of time that this process has been scheduled in user mode", "Jiff"⟩),
   ("ps_cputime_system", ⟨"Amount of time that this process has been scheduled in kernel mode", "Jiff"⟩),
   ("ps_pagefaults_min", ⟨"The number of minor faults the process has made", ""⟩),
   ("ps_pagefaults_maj", ⟨"The number of major faults the process has made", ""⟩),
   ("ps_disk_ops_syscr", ⟨"Attempt to count the number of read I/O operations", ""⟩),
   ("ps_disk_ops_syscw", ⟨"Attempt to count the number of write I/O operations", ""⟩),
   ("ps_disk_octets_rchar", ⟨"The number of bytes which this task has caused to be read from storage", "B"⟩),
   ("ps_disk_octets_wchar", ⟨"The number of bytes which this task has caused, or shall cause to be written to disk", "B"⟩),
   ("ps_cmd_line", ⟨"Process command line with full path and args", ""⟩),
   ("ps_cmd", ⟨"Process command line with full path", ""⟩)]

/-- Go constant `pluginName` (processes.go:40). -/
def pluginName : String := "processes"

/-- Go constant `pluginVendor` (processes.go:42). -/
def pluginVendor : String := "intel"

/-- Go constant `fs` (processes.go:44). -/
def fs : String := "procfs"

/-- snap `core.NamespaceElement`: a namespace element is dynamic exactly when
its `Name` is non-empty. -/
structure NamespaceElement where
  Value : String
  Description : String
  Name : String
deriving DecidableEq

/-- snap `core.NamespaceElement.IsDynamic`: the element is dynamic iff its
`Name` field is non-empty. -/
def NamespaceElement.IsDynamic (e : NamespaceElement) : Bool :=
  e.Name != ""

/-- A static namespace element, as appended by `core.NewNamespace` /
`AddStaticElements`: only `Value` is set. -/
def staticElem (v : String) : NamespaceElement :=
  { Value := v, Description := "", Name := "" }

/-- A dynamic namespace element, as appended by `core.AddDynamicElement`:
`Value` is the wildcard `"*"`. -/
def dynamicElem (name description : String) : NamespaceElement :=
  { Value := "*", Description := description, Name := name }

/-- snap `core.Namespace.IsDynamic` (first component): true iff any element
of the namespace is dynamic. -/
def nsIsDynamic (ns : List NamespaceElement) : Bool :=
  ns.any (fun e => e.IsDynamic)

/-- snap `plugin.MetricType` restricted to the fields the source reads or
writes.  `Config_` is the flattened config table consulted by
`config.GetConfigItem`; timestamps are `Nat` ticks. -/
structure MetricType where
  Namespace_ : List NamespaceElement
  Data_ : MetricValue := .num 0
  Timestamp_ : Nat := 0
  Unit_ : String := ""
  Description_ : String := ""
  Config_ : List (String × String) := []
deriving DecidableEq

/-- Modelled from the spec: the repository file declaring the `Proc` record
returned by `metricCollector.GetStats` is not under src/.  Per the spec's
data model, a process record holds the process id (integer), the state code,
an ordered sequence of raw status fields at fixed positions of a known
layout (embedded as a total function from position to string), pre-resolved
data/code segment sizes, the command string, the full command line (which
may contain embedded NUL separator bytes), and the I/O counter mapping
(`ioc` embeds the Go field holding the I/O counters; a Go map read of a
missing key yields 0, so it is a total function). -/
structure Proc where
  Pid : Nat
  State : String
  Stat : Nat → String
  VmData : Nat
  VmCode : Nat
  CmdLine : String
  Cmd : String
  ioc : String → Nat

/-- Modelled from the spec: the repository file declaring the process-state
table `States` (used by the source as `States[code]` and `States.Values()`)
is not under src/.  The spec describes a static table mapping scheduler
state codes to known state names; its value set is the known-state set. -/
def States : List (String × String) :=
  [("R", "running"), ("S", "sleeping"), ("D", "waiting"), ("Z", "zombie"),
   ("T", "stopped"), ("t", "tracing"), ("X", "dead"), ("K", "wakekill"),
   ("W", "waking"), ("P", "parked")]

/-- `States.Values()` of the state table: the known state names. -/
def statesValues (states : List (String × String)) : List String :=
  states.map (fun p => p.2)

/-- Go map read `States[code]`: the empty string (Go zero value) when the
code has no entry. -/
def statesLookup (states : List (String × String)) (code : String) : String :=
  (states.lookup code).getD ""

/-- Value of a nonempty decimal digit string. -/
def decDigitsVal (l : List Char) : Nat :=
  l.foldl (fun acc c => acc * 10 + (c.toNat - 48)) 0

/-- Whether a string is a nonempty run of ASCII decimal digits — the
syntactic precondition of `strconv.ParseUint(s, 10, 64)`. -/
def isDigitString (s : String) : Bool :=
  !s.data.isEmpty && s.data.all Char.isDigit

/-- The first return value of Go `strconv.ParseUint(s, 10, 64)` as used by
the source with the error discarded (`v, _ :=`): 0 on a syntax error
(empty string or any non-digit byte), the maximum unsigned 64-bit value on
a range error, and the parsed value otherwise. -/
def parseUint64 (s : String) : Nat :=
  if isDigitString s then min (decDigitsVal s.data) (2 ^ 64 - 1) else 0

/-- Whether `strconv.ParseUint(s, 10, 64)` succeeds, i.e. the string parses
as an unsigned 64-bit integer: a nonempty decimal digit string whose value
fits in 64 bits. -/
def parsesAsUInt64 (s : String) : Bool :=
  isDigitString s && decide (decDigitsVal s.data < 2 ^ 64)

/-- Overwrite the value stored at a key of an association list, keeping its
position (the embedding of assignment to an existing key of a Go map). -/
def assocSet (l : List (String × MetricValue)) (k : String) (v : MetricValue) :
    List (String × MetricValue) :=
  l.map (fun p => if p.1 = k then (k, v) else p)

/-- Go `setProcMetrics` (processes.go:260-307) as an association list in the
map's key order: every key of `metricNames` is first initialized to 0, then
each metric is assigned exactly as in the source. -/
def setProcMetricsList (proc : Proc) : List (String × MetricValue) :=
  let m0 := metricNamesList.map (fun p => (p.1, MetricValue.num 0))
  let m1 := assocSet m0 "ps_vm" (.num (parseUint64 (proc.Stat 22)))
  let m2 := assocSet m1 "ps_rss" (.num (parseUint64 (proc.Stat 23)))
  let m3 := assocSet m2 "ps_data" (.num proc.VmData)
  let m4 := assocSet m3 "ps_code" (.num proc.VmCode)
  let stack1 := parseUint64 (proc.Stat 27)
  let stack2 := parseUint64 (proc.Stat 28)
  let m5 := assocSet m4 "ps_stacksize"
    (.num (if stack1 > stack2 then stack1 - stack2 else stack2 - stack1))
  let m6 := assocSet m5 "ps_cputime_user" (.num (parseUint64 (proc.Stat 13)))
  let m7 := assocSet m6 "ps_cputime_system" (.num (parseUint64 (proc.Stat 14)))
  let m8 := assocSet m7 "ps_pagefaults_min" (.num (parseUint64 (proc.Stat 9)))
  let m9 := assocSet m8 "ps_pagefaults_maj" (.num (parseUint64 (proc.Stat 11)))
  let m10 := assocSet m9 "ps_disk_octets_rchar" (.num (proc.ioc "rchar"))
  let m11 := assocSet m10 "ps_disk_octets_wchar" (.num (proc.ioc "wchar"))
  let m12 := assocSet m11 "ps_disk_ops_syscr" (.num (proc.ioc "syscr"))
  let m13 := assocSet m12 "ps_disk_ops_syscw" (.num (proc.ioc "syscw"))
  let m14 := assocSet m13 "ps_cmd_line" (.str proc.CmdLine)
  assocSet m14 "ps_cmd" (.str proc.Cmd)

/-- Go `strings.Split` restricted to a single-character separator (the two
uses in the source split on `"\x00"` and `"/"`): splitting any list yields
at least one (possibly empty) segment. -/
def splitOnChar (c : Char) : List Char → List (List Char)
  | [] => [[]]
  | x :: xs =>
    match splitOnChar c xs with
    | [] => [[]]
    | y :: ys => if x = c then [] :: y :: ys else (x :: y) :: ys

/-- The process-name computation of processes.go:222-223: the last
`'/'`-separated segment of the command line truncated at its first NUL
byte (`strings.Split(strings.Split(proc.CmdLine, "\x00")[0], "/")`, last
element). -/
def cmdLastSegment (cmdLine : String) : String :=
  let firstPart := (splitOnChar (Char.ofNat 0) cmdLine.data).headD []
  String.mk ((splitOnChar '/' firstPart).getLastD [])

/-- Go map read `metricNames[name]` (zero-valued `label` when absent). -/
def lookupLabel (name : String) : label :=
  (metricNamesList.lookup name).getD ⟨"", ""⟩

/-- Outcomes with which `CollectMetrics` can abort.  `cfgItemMissing` is the
error returned by `config.GetConfigItem` (processes.go:180-183);
`nsTooShort` is the configuration error for a namespace shorter than 4
elements (processes.go:205-207); `dataSource` wraps a `GetStats` failure
(processes.go:191-194); `outOfRange` is a Go index-out-of-range runtime
panic on a slice access. -/
inductive CollectError where
  | cfgItemMissing
  | nsTooShort (n : Nat)
  | dataSource (msg : String)
  | outOfRange
deriving DecidableEq

/-- `config.GetConfigItem(mt, key)` from snap-plugin-utilities: look the key
up in the metric's config table, failing when it is absent. -/
def getConfigItem (mt : MetricType) (key : String) : Except Unit String :=
  match mt.Config_.lookup key with
  | some v => .ok v
  | none => .error ()

/-- `stateCount[stateName]++` on the embedded map (processes.go:199): bump
the first entry holding the key, appending a fresh entry with count 1 when
the key is absent (a Go map increment of a missing key). -/
def bump : List (String × Nat) → String → List (String × Nat)
  | [], k => [(k, 1)]
  | (k', v) :: rest, k =>
    if k' = k then (k', v + 1) :: rest else (k', v) :: bump rest k

/-- The state aggregation of processes.go:186-200: initialize a bucket 0 for
every known state, then bump the bucket named by `States[proc.State]` for
each record of the snapshot. -/
def aggregate (states : List (String × String)) (stats : List Proc) :
    List (String × Nat) :=
  stats.foldl (fun sc proc => bump sc (statesLookup states proc.State))
    ((statesValues states).map (fun s => (s, 0)))

/-- Copy the namespace and overwrite the `Value` of its `i`-th element
(processes.go:220-223: `nuns := append(...); nuns[i].Value = v`; `Name` and
`Description` are preserved, so a dynamic element stays dynamic). -/
def setElemValue (ns : List NamespaceElement) (i : Nat) (v : String) :
    List NamespaceElement :=
  match ns.get? i with
  | some e => ns.set i { e with Value := v }
  | none => ns

/-- The fully-dynamic expansion body for one process (processes.go:215-233):
iterate over the extracted metric map and, for the entry whose key equals
the requested leaf value, emit one metric with the pid and name elements
filled in and unit/description copied from `metricNames`. -/
def emitForProc (ns : List NamespaceElement) (leaf : String) (now : Nat)
    (proc : Proc) : List MetricType :=
  (setProcMetricsList proc).foldr (fun kv acc =>
    if kv.1 = leaf then
      { Namespace_ := setElemValue (setElemValue ns 4 (toString proc.Pid)) 5
          (cmdLastSegment proc.CmdLine),
        Data_ := kv.2,
        Timestamp_ := now,
        Unit_ := (lookupLabel kv.1).unit,
        Description_ := (lookupLabel kv.1).description,
        Config_ := [] } :: acc
    else acc) []

/-- The per-pattern body of the resolution loop (processes.go:203-255):
reject namespaces shorter than 4 elements; for a dynamic namespace inspect
elements 4 and 5 (a missing index is a Go panic, `outOfRange`) and expand
the fully-dynamic case over the snapshot via element 6 — that leaf access
sits inside the per-process loop, so it is only reached when the snapshot
is non-empty; the two partially-dynamic branches are intentional no-ops;
for a static namespace whose element 3 names a known state, emit its
aggregate count. -/
def resolveOne (states : List (String × String))
    (stateCount : List (String × Nat)) (stats : List Proc) (now : Nat)
    (mt : MetricType) : Except CollectError (List MetricType) :=
  let ns := mt.Namespace_
  if ns.length < 4 then .error (.nsTooShort ns.length)
  else if nsIsDynamic ns then
    match ns.get? 4 with
    | none => .error .outOfRange
    | some e4 =>
      if e4.IsDynamic then
        match ns.get? 5 with
        | none => .error .outOfRange
        | some e5 =>
          if e5.IsDynamic then
            match stats, ns.get? 6 with
            | [], _ => .ok []
            | _ :: _, none => .error .outOfRange
            | _ :: _, some e6 => .ok (stats.flatMap (emitForProc ns e6.Value now))
          else .ok []
      else .ok []
  else
    match ns.get? 3 with
    | none => .error .outOfRange
    | some e3 =>
      if (statesValues states).contains e3.Value then
        match stateCount.lookup e3.Value with
        | some v =>
          .ok [{ Namespace_ := ns,
                 Data_ := .num v,
                 Timestamp_ := now,
                 Description_ := "Number of processes in " ++ e3.Value ++ " state",
                 Unit_ := "",
                 Config_ := [] }]
        | none => .ok []
      else .ok []

/-- The resolution loop over the requested patterns (processes.go:203-255):
concatenate per-pattern results in request order; any error aborts the
whole call with no metrics (the Go code returns `nil, err`). -/
def resolveLoop (states : List (String × String))
    (stateCount : List (String × Nat)) (stats : List Proc) (now : Nat) :
    List MetricType → Except CollectError (List MetricType)
  | [] => .ok []
  | mt :: rest =>
    match resolveOne states stateCount stats now mt with
    | .error e => .error e
    | .ok ms =>
      match resolveLoop states stateCount stats now rest with
      | .error e => .error e
      | .ok msRest => .ok (ms ++ msRest)

/-- Go `CollectMetrics` (processes.go:176-258), parameterized by the state
table, the data source `fetch` (the `GetStats` method of the collector) and
the resolution time `now`.  The config value `proc_path` is read from
element 0 of the request list — a Go panic (`outOfRange`) when the list is
empty — then the snapshot is fetched, the state counts aggregated, and the
patterns resolved. -/
def collectMetrics (states : List (String × String))
    (fetch : String → Except String (List Proc))
    (metricTypes : List MetricType) (now : Nat) :
    Except CollectError (List MetricType) :=
  match metricTypes.head? with
  | none => .error .outOfRange
  | some mt0 =>
    match getConfigItem mt0 "proc_path" with
    | .error _ => .error .cfgItemMissing
    | .ok procPath =>
      match fetch procPath with
      | .error e => .error (.dataSource e)
      | .ok stats =>
        resolveLoop states (aggregate states stats) stats now metricTypes

/-- Go `GetMetricTypes` (processes.go:137-163), parameterized by the state
table and the config node: one pattern `/intel/procfs/processes/pid/*/*/
<metricName>` (two dynamic placeholders, static leaf) per metric name, then
one fully-static pattern `/intel/procfs/processes/<state>` per known
state. -/
def getMetricTypes (states : List (String × String))
    (cfg : List (String × String)) : List MetricType :=
  metricNamesList.map (fun nl =>
    { Namespace_ := [staticElem pluginVendor, staticElem fs,
        staticElem pluginName, staticElem "pid",
        dynamicElem "process_id" "pid of the running process",
        dynamicElem "process_name" "name of the running process",
        staticElem nl.1],
      Config_ := cfg,
      Description_ := nl.2.description,
      Unit_ := nl.2.unit })
  ++ (statesValues states).map (fun state =>
    { Namespace_ := [staticElem pluginVendor, staticElem fs,
        staticElem pluginName, staticElem state],
      Config_ := cfg,
      Description_ := "Number of processes in " ++ state ++ " state",
      Unit_ := "" })

/-- A process record carrying only a state code, for state-count tests. -/
def w4stateProc (s : String) : Proc :=
  ⟨1, s, fun _ => "", 0, 0, "", "", fun _ => 0⟩

/-- Snapshot with 3 running and 5 sleeping processes. -/
def w4stats : List Proc :=
  [w4stateProc "R", w4stateProc "R", w4stateProc "R",
   w4stateProc "S", w4stateProc "S", w4stateProc "S",
   w4stateProc "S", w4stateProc "S"]

/-- Data source returning the 3-running/5-sleeping snapshot. -/
def w4fetch : String → Except String (List Proc) :=
  fun _ => .ok w4stats

/-- Fully static pattern with leaf "running". -/
def w4patRunning : MetricType :=
  { Namespace_ := [staticElem "intel", staticElem "procfs",
      staticElem "processes", staticElem "running"],
    Config_ := [("proc_path", "/proc")] }

/-- Fully static pattern with leaf "unknownstate". -/
def w4patUnknown : MetricType :=
  { Namespace_ := [staticElem "intel", staticElem "procfs",
      staticElem "processes", staticElem "unknownstate"],
    Config_ := [("proc_path", "/proc")] }

/-- Process record whose status field 22 holds 2^64, one past the unsigned
64-bit range. -/
def c3proc : Proc :=
  ⟨1, "R", fun i => if i = 22 then "18446744073709551616" else "", 0, 0,
   "", "", fun _ => 0⟩

/-- Record with every status field malformed and distinctive verbatim
fields. -/
def w3proc : Proc :=
  ⟨1, "R", fun _ => "garbage", 5, 6, "cmdline", "cmd",
   fun k => if k = "rchar" then 11 else if k = "wchar" then 12 else
     if k = "syscr" then 13 else if k = "syscw" then 14 else 0⟩

/-- The same record with the two stack-boundary status fields (positions 27
and 28) swapped. -/
def swapStack (proc : Proc) : Proc :=
  { proc with Stat := fun i =>
      if i = 27 then proc.Stat 28
      else if i = 28 then proc.Stat 27
      else proc.Stat i }

/-- Witness snapshot for the aggregation claim: one running and one
sleeping process. -/
def w6statsA : List Proc := [w4stateProc "R", w4stateProc "S"]

/-- The same snapshot with the two records swapped. -/
def w6statsB : List Proc := [w4stateProc "S", w4stateProc "R"]

/-- The namespace shape discovery emits for a metric definition: the static
prefix, two dynamic placeholders, and a static leaf with the metric name
(processes.go:141-149). -/
def metricPatternNs (name : String) : List NamespaceElement :=
  [staticElem pluginVendor, staticElem fs, staticElem pluginName,
   staticElem "pid",
   dynamicElem "process_id" "pid of the running process",
   dynamicElem "process_name" "name of the running process",
   staticElem name]

/-- The namespace shape discovery emits for a known state: four static
elements with the state name as leaf (processes.go:153-160). -/
def statePatternNs (state : String) : List NamespaceElement :=
  [staticElem pluginVendor, staticElem fs, staticElem pluginName,
   staticElem state]

/-- A requested pattern of exactly 4 elements whose first element is
dynamic. -/
def c2patDyn4 : MetricType :=
  { Namespace_ := [dynamicElem "el0" "first element, dynamic",
      staticElem "x", staticElem "y", staticElem "z"],
    Config_ := [("proc_path", "/proc")] }

/-- Data source returning the empty snapshot. -/
def cxFetchNil : String → Except String (List Proc) :=
  fun _ => .ok []

/-- A requested pattern of 3 elements. -/
def c5short3 : MetricType :=
  { Namespace_ := [staticElem "intel", staticElem "procfs",
      staticElem "processes"],
    Config_ := [("proc_path", "/proc")] }

/-- Data source failing with message "boom". -/
def w5fetchErr : String → Except String (List Proc) :=
  fun _ => .error "boom"

/-- Erase the timestamp of a metric (all other fields kept). -/
def stripTime (mt : MetricType) : MetricType :=
  { mt with Timestamp_ := 0 }

/-- A 4-element requested pattern carrying no configuration. -/
def w10mtNoCfg : MetricType :=
  { Namespace_ := [staticElem "intel", staticElem "procfs",
      staticElem "processes", staticElem "running"],
    Config_ := [] }

/-- Spec §8 snapshot, first process: pid 100, `/usr/bin/foo\x00-x`,
status field 22 = "4096". -/
def w1procFoo : Proc :=
  ⟨100, "R", fun i => if i = 22 then "4096" else "", 0, 0,
   "/usr/bin/foo\x00-x", "foo", fun _ => 0⟩

/-- Spec §8 snapshot, second process: pid 200, `/bin/bar`,
status field 22 = "8192". -/
def w1procBar : Proc :=
  ⟨200, "S", fun i => if i = 22 then "8192" else "", 0, 0,
   "/bin/bar", "bar", fun _ => 0⟩

/-- A fully-dynamic requested pattern with leaf `ps_vm`, in the exact shape
produced by discovery. -/
def w1pattern : MetricType :=
  { Namespace_ := [staticElem "intel", staticElem "procfs",
      staticElem "processes", staticElem "pid",
      dynamicElem "process_id" "pid of the running process",
      dynamicElem "process_name" "name of the running process",
      staticElem "ps_vm"],
    Config_ := [("proc_path", "/proc")] }

/-- Data source returning the spec §8 two-process snapshot. -/
def w1fetch : String → Except String (List Proc) :=
  fun _ => .ok [w1procFoo, w1procBar]

/-- The extracted metric map in explicit form: the `assocSet` chain of
`setProcMetricsList` overwrites every initialized key exactly once. -/
theorem setProcMetricsList_eq (proc : Proc) :
    setProcMetricsList proc =
      [("ps_vm", .num (parseUint64 (proc.Stat 22))),
       ("ps_rss", .num (parseUint64 (proc.Stat 23))),
       ("ps_data", .num proc.VmData),
       ("ps_code", .num proc.VmCode),
       ("ps_stacksize", .num
         (if parseUint64 (proc.Stat 27) > parseUint64 (proc.Stat 28) then
            parseUint64 (proc.Stat 27) - parseUint64 (proc.Stat 28)
          else parseUint64 (proc.Stat 28) - parseUint64 (proc.Stat 27))),
       ("ps_cputime_user", .num (parseUint64 (proc.Stat 13))),
       ("ps_cputime_system", .num (parseUint64 (proc.Stat 14))),
       ("ps_pagefaults_min", .num (parseUint64 (proc.Stat 9))),
       ("ps_pagefaults_maj", .num (parseUint64 (proc.Stat 11))),
       ("ps_disk_ops_syscr", .num (proc.ioc "syscr")),
       ("ps_disk_ops_syscw", .num (proc.ioc "syscw")),
       ("ps_disk_octets_rchar", .num (proc.ioc "rchar")),
       ("ps_disk_octets_wchar", .num (proc.ioc "wchar")),
       ("ps_cmd_line", .str proc.CmdLine),
       ("ps_cmd", .str proc.Cmd)] := by
  simp [setProcMetricsList, assocSet, metricNamesList]

/-- The keys of the extracted metric map are exactly the declared metric
names, in catalog order. -/
theorem setProcMetricsList_keys (proc : Proc) :
    (setProcMetricsList proc).map Prod.fst = metricNamesList.map Prod.fst := by
  rw [setProcMetricsList_eq]
  simp [metricNamesList]

theorem foldr_filterKey_not_mem {β γ : Type} (g : String → β → γ) :
    ∀ (l : List (String × β)) (k : String), ¬ k ∈ l.map Prod.fst →
      l.foldr (fun kv acc => if kv.1 = k then g kv.1 kv.2 :: acc else acc) [] = [] := by
  intro l k
  induction l with
  | nil => intro; rfl
  | cons hd tl ih =>
    intro h
    simp only [List.map_cons, List.mem_cons, not_or] at h
    have hne : ¬ hd.1 = k := fun he : hd.1 = k => h.1 he.symm
    simp only [List.foldr_cons, if_neg hne, ih h.2]

theorem foldr_filterKey_single {β γ : Type} (g : String → β → γ) :
    ∀ (l : List (String × β)) (k : String) (v : β),
      (l.map Prod.fst).Nodup → l.lookup k = some v →
      l.foldr (fun kv acc => if kv.1 = k then g kv.1 kv.2 :: acc else acc) [] = [g k v] := by
  intro l
  induction l with
  | nil => intro k v _ h; simp [List.lookup] at h
  | cons hd tl ih =>
    intro k v hnd h
    obtain ⟨k0, v0⟩ := hd
    simp only [List.map_cons, List.nodup_cons] at hnd
    by_cases hk : k = k0
    · subst hk
      simp only [List.lookup, beq_self_eq_true] at h
      cases h
      simp only [List.foldr_cons, if_pos rfl,
        foldr_filterKey_not_mem g tl k hnd.1, eq_self_iff_true, if_true]
    · have hbeq : (k == k0) = false := beq_eq_false_iff_ne.mpr hk
      have hne : ¬ k0 = k := fun he : k0 = k => hk he.symm
      simp only [List.lookup, hbeq] at h
      simp only [List.foldr_cons, if_neg hne]
      exact ih k v hnd.2 h

theorem lookup_isSome_congr {β γ : Type} :
    ∀ (l₁ : List (String × β)) (l₂ : List (String × γ)),
      l₁.map Prod.fst = l₂.map Prod.fst →
      ∀ k, (l₁.lookup k).isSome = (l₂.lookup k).isSome := by
  intro l₁
  induction l₁ with
  | nil =>
    intro l₂ h k
    cases l₂ with
    | nil => rfl
    | cons hd₂ tl₂ => simp at h
  | cons hd tl ih =>
    intro l₂ h k
    cases l₂ with
    | nil => simp at h
    | cons hd₂ tl₂ =>
      simp only [List.map_cons, List.cons.injEq] at h
      by_cases hk : k = hd.1
      · subst hk
        have hb : (hd.1 == hd.1) = true := beq_self_eq_true hd.1
        simp [List.lookup, ← h.1, hb]
      · have h1 : (k == hd.1) = false := beq_eq_false_iff_ne.mpr hk
        have h2 : (k == hd₂.1) = false := beq_eq_false_iff_ne.mpr (h.1 ▸ hk)
        simp only [List.lookup, h1, h2]
        exact ih tl₂ h.2 k

theorem lookup_bump (sc : List (String × Nat)) (k kb : String) :
    (bump sc kb).lookup k =
      if k = kb then some (((sc.lookup k).getD 0) + 1) else sc.lookup k := by
  induction sc with
  | nil =>
    by_cases hk : k = kb
    · subst hk; simp [bump, List.lookup]
    · simp [bump, List.lookup, beq_eq_false_iff_ne.mpr hk, hk]
  | cons hd tl ih =>
    obtain ⟨k0, v0⟩ := hd
    by_cases h0 : k0 = kb
    · subst h0
      simp only [bump, if_pos rfl]
      by_cases hk : k = k0
      · subst hk; simp [List.lookup]
      · simp [List.lookup, beq_eq_false_iff_ne.mpr hk, hk]
    · simp only [bump, if_neg h0]
      by_cases hk : k = k0
      · subst hk
        have hne : ¬ k = kb := fun he : k = kb => h0 he
        simp [List.lookup, hne]
      · simp only [List.lookup, beq_eq_false_iff_ne.mpr hk]
        exact ih

theorem lookup_foldl_bump (states : List (String × String)) :
    ∀ (procs : List Proc) (sc : List (String × Nat)) (k : String),
      (procs.foldl (fun sc proc => bump sc (statesLookup states proc.State)) sc).lookup k =
        (if procs.countP (fun p => statesLookup states p.State == k) = 0 then sc.lookup k
         else some ((sc.lookup k).getD 0 +
           procs.countP (fun p => statesLookup states p.State == k))) := by
  intro procs
  induction procs with
  | nil => intro sc k; simp
  | cons p rest ih =>
    intro sc k
    simp only [List.foldl_cons, List.countP_cons]
    rw [ih, lookup_bump]
    by_cases hpk : statesLookup states p.State = k
    · have hb : (statesLookup states p.State == k) = true := beq_iff_eq.mpr hpk
      have hkp : k = statesLookup states p.State := hpk.symm
      simp only [hb, if_true, if_pos hkp]
      by_cases hc : rest.countP (fun p => statesLookup states p.State == k) = 0
      · simp [hc]
      · simp only [if_neg hc, Option.getD_some]
        have hcc : ¬ (rest.countP (fun p => statesLookup states p.State == k) + 1 = 0) := by
          omega
        simp only [if_neg hcc, Option.some.injEq]
        omega
    · have hb : (statesLookup states p.State == k) = false := beq_eq_false_iff_ne.mpr hpk
      have hkp : ¬ k = statesLookup states p.State := fun he => hpk he.symm
      simp [hb, if_neg hkp]

theorem lookup_map_zero (l : List String) (s : String) (h : s ∈ l) :
    (l.map (fun x => (x, (0 : Nat)))).lookup s = some 0 := by
  induction l with
  | nil => cases h
  | cons hd tl ih =>
    by_cases hs : s = hd
    · subst hs; simp [List.lookup]
    · have hmem : s ∈ tl := by
        rcases List.mem_cons.mp h with h1 | h1
        · exact absurd h1 hs
        · exact h1
      simp only [List.map_cons, List.lookup, beq_eq_false_iff_ne.mpr hs]
      exact ih hmem

theorem metricNames_keys_nodup : (metricNamesList.map Prod.fst).Nodup := by
  decide

theorem resolveOne_short (states : List (String × String))
    (sc : List (String × Nat)) (stats : List Proc) (now : Nat)
    (mt : MetricType) (h : mt.Namespace_.length < 4) :
    resolveOne states sc stats now mt =
      .error (.nsTooShort mt.Namespace_.length) := by
  unfold resolveOne
  rw [if_pos h]

theorem resolveOne_static_state (states : List (String × String))
    (sc : List (String × Nat)) (stats : List Proc) (now : Nat)
    (mt : MetricType) (e3 : NamespaceElement) (v : Nat)
    (hdyn : nsIsDynamic mt.Namespace_ = false)
    (hlen : 4 ≤ mt.Namespace_.length)
    (h3 : mt.Namespace_.get? 3 = some e3)
    (hknown : (statesValues states).contains e3.Value = true)
    (hcount : sc.lookup e3.Value = some v) :
    resolveOne states sc stats now mt =
      .ok [{ Namespace_ := mt.Namespace_,
             Data_ := .num v,
             Timestamp_ := now,
             Description_ := "Number of processes in " ++ e3.Value ++ " state",
             Unit_ := "",
             Config_ := [] }] := by
  unfold resolveOne
  rw [if_neg (by omega), hdyn]
  simp only [Bool.false_eq_true, if_false, h3, hknown, if_true, hcount]

theorem resolveOne_static_unknown (states : List (String × String))
    (sc : List (String × Nat)) (stats : List Proc) (now : Nat)
    (mt : MetricType) (e3 : NamespaceElement)
    (hdyn : nsIsDynamic mt.Namespace_ = false)
    (hlen : 4 ≤ mt.Namespace_.length)
    (h3 : mt.Namespace_.get? 3 = some e3)
    (hknown : (statesValues states).contains e3.Value = false) :
    resolveOne states sc stats now mt = .ok [] := by
  unfold resolveOne
  rw [if_neg (by omega), hdyn]
  simp only [Bool.false_eq_true, if_false, h3, hknown]

theorem resolveOne_fullyDynamic (states : List (String × String))
    (sc : List (String × Nat)) (stats : List Proc) (now : Nat)
    (mt : MetricType) (e4 e5 e6 : NamespaceElement)
    (h4 : mt.Namespace_.get? 4 = some e4) (hd4 : e4.IsDynamic = true)
    (h5 : mt.Namespace_.get? 5 = some e5) (hd5 : e5.IsDynamic = true)
    (h6 : mt.Namespace_.get? 6 = some e6) :
    resolveOne states sc stats now mt =
      .ok (stats.flatMap (emitForProc mt.Namespace_ e6.Value now)) := by
  have hlen : 6 < mt.Namespace_.length := by
    rcases List.get?_eq_some.mp h6 with ⟨h', _⟩
    exact h'
  have hdyn : nsIsDynamic mt.Namespace_ = true := by
    refine List.any_eq_true.mpr ⟨e4, List.get?_mem h4, hd4⟩
  unfold resolveOne
  rw [if_neg (by omega), hdyn]
  simp only [if_true, h4, hd4, h5, hd5, h6, if_true]
  cases stats with
  | nil => rfl
  | cons p ps => rfl

theorem resolveOne_total (states : List (String × String))
    (sc : List (String × Nat)) (stats : List Proc) (now : Nat)
    (mt : MetricType)
    (hlen : 4 ≤ mt.Namespace_.length)
    (hsafe : nsIsDynamic mt.Namespace_ = false ∨ 7 ≤ mt.Namespace_.length) :
    ∃ ms, resolveOne states sc stats now mt = .ok ms := by
  unfold resolveOne
  rw [if_neg (by omega)]
  rcases hsafe with hstat | hlong
  · rw [hstat]
    simp only [Bool.false_eq_true, if_false]
    have h3 : mt.Namespace_.get? 3 = some (mt.Namespace_.get ⟨3, by omega⟩) :=
      List.get?_eq_get (by omega)
    simp only [h3]
    by_cases hk :
        (statesValues states).contains (mt.Namespace_.get ⟨3, by omega⟩).Value
    · simp only [hk, if_true]
      cases hv : sc.lookup (mt.Namespace_.get ⟨3, by omega⟩).Value with
      | none => exact ⟨_, rfl⟩
      | some v => exact ⟨_, rfl⟩
    · simp only [Bool.not_eq_true] at hk
      simp only [hk, Bool.false_eq_true, if_false]
      exact ⟨_, rfl⟩
  · by_cases hdyn : nsIsDynamic mt.Namespace_
    · rw [if_pos hdyn]
      have h4 : mt.Namespace_.get? 4 = some (mt.Namespace_.get ⟨4, by omega⟩) :=
        List.get?_eq_get (by omega)
      have h5 : mt.Namespace_.get? 5 = some (mt.Namespace_.get ⟨5, by omega⟩) :=
        List.get?_eq_get (by omega)
      have h6 : mt.Namespace_.get? 6 = some (mt.Namespace_.get ⟨6, by omega⟩) :=
        List.get?_eq_get (by omega)
      simp only [h4]
      by_cases hd4 : (mt.Namespace_.get ⟨4, by omega⟩).IsDynamic
      · simp only [hd4, if_true, h5]
        by_cases hd5 : (mt.Namespace_.get ⟨5, by omega⟩).IsDynamic
        · simp only [hd5, if_true, h6]
          cases stats with
          | nil => exact ⟨_, rfl⟩
          | cons p ps => exact ⟨_, rfl⟩
        · simp only [Bool.not_eq_true] at hd5
          simp only [hd5, Bool.false_eq_true, if_false]
          exact ⟨_, rfl⟩
      · simp only [Bool.not_eq_true] at hd4
        simp only [hd4, Bool.false_eq_true, if_false]
        exact ⟨_, rfl⟩
    · rw [if_neg hdyn]
      have h3 : mt.Namespace_.get? 3 = some (mt.Namespace_.get ⟨3, by omega⟩) :=
        List.get?_eq_get (by omega)
      simp only [h3]
      by_cases hk :
          (statesValues states).contains (mt.Namespace_.get ⟨3, by omega⟩).Value
      · simp only [hk, if_true]
        cases hv : sc.lookup (mt.Namespace_.get ⟨3, by omega⟩).Value with
        | none => exact ⟨_, rfl⟩
        | some v => exact ⟨_, rfl⟩
      · simp only [Bool.not_eq_true] at hk
        simp only [hk, Bool.false_eq_true, if_false]
        exact ⟨_, rfl⟩

theorem resolveLoop_append_error (states : List (String × String))
    (sc : List (String × Nat)) (stats : List Proc) (now : Nat) :
    ∀ (pre rest : List MetricType) (e : CollectError),
      (∀ mt ∈ pre, ∃ ms, resolveOne states sc stats now mt = .ok ms) →
      resolveLoop states sc stats now rest = .error e →
      resolveLoop states sc stats now (pre ++ rest) = .error e := by
  intro pre
  induction pre with
  | nil => intro rest e _ h; simpa using h
  | cons mt tl ih =>
    intro rest e hpre h
    rcases hpre mt (List.mem_cons_self mt tl) with ⟨ms, hms⟩
    have hrec : resolveLoop states sc stats now (tl ++ rest) = .error e :=
      ih rest e (fun m hm => hpre m (List.mem_cons_of_mem mt hm)) h
    simp only [List.cons_append, resolveLoop, List.append_eq, hms, hrec]

theorem collectMetrics_unfold_ok (states : List (String × String))
    (fetch : String → Except String (List Proc)) (mts : List MetricType)
    (mt0 : MetricType) (path : String) (stats : List Proc) (now : Nat)
    (h0 : mts.head? = some mt0)
    (hcfg : getConfigItem mt0 "proc_path" = .ok path)
    (hfetch : fetch path = .ok stats) :
    collectMetrics states fetch mts now =
      resolveLoop states (aggregate states stats) stats now mts := by
  unfold collectMetrics
  simp only [h0, hcfg, hfetch]

theorem resolveLoop_single (states : List (String × String))
    (sc : List (String × Nat)) (stats : List Proc) (now : Nat)
    (mt : MetricType) (ms : List MetricType)
    (h : resolveOne states sc stats now mt = .ok ms) :
    resolveLoop states sc stats now [mt] = .ok ms := by
  simp only [resolveLoop, h, List.append_nil]

theorem flatMap_eq_map_of_single {α β : Type} (f : α → List β) (g : α → β)
    (h : ∀ a, f a = [g a]) : ∀ l : List α, l.flatMap f = l.map g := by
  intro l
  induction l with
  | nil => rfl
  | cons hd tl ih => simp only [List.flatMap_cons, List.map_cons, h hd, ih,
      List.singleton_append]

theorem emitForProc_eq (ns : List NamespaceElement) (leaf : String) (now : Nat)
    (proc : Proc) (v : MetricValue)
    (h : (setProcMetricsList proc).lookup leaf = some v) :
    emitForProc ns leaf now proc =
      [{ Namespace_ := setElemValue (setElemValue ns 4 (toString proc.Pid)) 5
           (cmdLastSegment proc.CmdLine),
         Data_ := v,
         Timestamp_ := now,
         Unit_ := (lookupLabel leaf).unit,
         Description_ := (lookupLabel leaf).description,
         Config_ := [] }] := by
  have hnd : ((setProcMetricsList proc).map Prod.fst).Nodup := by
    rw [setProcMetricsList_keys]
    exact metricNames_keys_nodup
  unfold emitForProc
  generalize hL : setProcMetricsList proc = L at h hnd ⊢
  exact foldr_filterKey_single
    (fun (k : String) (w : MetricValue) =>
      ({ Namespace_ := setElemValue (setElemValue ns 4 (toString proc.Pid)) 5
           (cmdLastSegment proc.CmdLine),
         Data_ := w,
         Timestamp_ := now,
         Unit_ := (lookupLabel k).unit,
         Description_ := (lookupLabel k).description,
         Config_ := [] } : MetricType))
    L leaf v hnd h

theorem setProc_lookup_of_declared (proc : Proc) (m : String) (lbl : label)
    (h : metricNamesList.lookup m = some lbl) :
    (setProcMetricsList proc).lookup m =
      some (((setProcMetricsList proc).lookup m).getD (.num 0)) := by
  have hsome : ((setProcMetricsList proc).lookup m).isSome = true := by
    rw [lookup_isSome_congr (setProcMetricsList proc) metricNamesList
      (setProcMetricsList_keys proc) m, h]
    rfl
  cases hv : (setProcMetricsList proc).lookup m with
  | none => rw [hv] at hsome; cases hsome
  | some v => rfl

theorem aggregate_lookup_known (states : List (String × String))
    (stats : List Proc) (s : String) (h : s ∈ statesValues states) :
    ∃ v, (aggregate states stats).lookup s = some v := by
  unfold aggregate
  rw [lookup_foldl_bump]
  by_cases hc : stats.countP (fun p => statesLookup states p.State == s) = 0
  · rw [if_pos hc, lookup_map_zero (statesValues states) s h]
    exact ⟨0, rfl⟩
  · rw [if_neg hc]
    exact ⟨_, rfl⟩

/-- C4: for a fully static requested pattern (no dynamic element, at least 4
elements) whose element 3 names a known state, resolution emits exactly one
concrete metric whose value is the state-count entry for that state, with
description "Number of processes in <state> state" and empty unit; when
element 3 is not a known state name, it emits no metric and no error. -/
theorem collect_static_state_count (states : List (String × String))
    (fetch : String → Except String (List Proc)) (mt : MetricType)
    (path : String) (stats : List Proc) (now : Nat) (e3 : NamespaceElement)
    (hcfg : getConfigItem mt "proc_path" = .ok path)
    (hfetch : fetch path = .ok stats)
    (hdyn : nsIsDynamic mt.Namespace_ = false)
    (hlen : 4 ≤ mt.Namespace_.length)
    (h3 : mt.Namespace_.get? 3 = some e3) :
    (∀ v : Nat, (statesValues states).contains e3.Value = true →
      (aggregate states stats).lookup e3.Value = some v →
      collectMetrics states fetch [mt] now =
        .ok [{ Namespace_ := mt.Namespace_,
               Data_ := .num v,
               Timestamp_ := now,
               Description_ := "Number of processes in " ++ e3.Value ++ " state",
               Unit_ := "",
               Config_ := [] }]) ∧
    ((statesValues states).contains e3.Value = false →
      collectMetrics states fetch [mt] now = .ok []) := by
  constructor
  · intro v hknown hcount
    rw [collectMetrics_unfold_ok states fetch [mt] mt path stats now rfl hcfg
      hfetch]
    rw [resolveLoop_single states (aggregate states stats) stats now mt _
      (resolveOne_static_state states (aggregate states stats) stats now mt
        e3 v hdyn hlen h3 hknown hcount)]
  · intro hunknown
    rw [collectMetrics_unfold_ok states fetch [mt] mt path stats now rfl hcfg
      hfetch]
    rw [resolveLoop_single states (aggregate states stats) stats now mt _
      (resolveOne_static_unknown states (aggregate states stats) stats now mt
        e3 hdyn hlen h3 hunknown)]

/-- Witness for C4: on the 3-running/5-sleeping snapshot, the static
"running" pattern resolves to exactly one metric of value 3, and the static
"unknownstate" pattern resolves to no metrics and no error. -/
theorem collect_static_state_count_witness :
    collectMetrics States w4fetch [w4patRunning] 3 =
      .ok [{ Namespace_ := [staticElem "intel", staticElem "procfs",
               staticElem "processes", staticElem "running"],
             Data_ := .num 3,
             Timestamp_ := 3,
             Description_ := "Number of processes in running state",
             Unit_ := "",
             Config_ := [] }] ∧
    collectMetrics States w4fetch [w4patUnknown] 3 = .ok [] :=
  ⟨((collect_static_state_count States w4fetch w4patRunning "/proc" w4stats 3
      (staticElem "running") rfl rfl rfl (by decide) rfl).1 3 rfl rfl).trans
    (by rfl),
   (collect_static_state_count States w4fetch w4patUnknown "/proc" w4stats 3
      (staticElem "unknownstate") rfl rfl rfl (by decide) rfl).2 rfl⟩

/-- C3 counterexample: a status field that fails to parse as an unsigned
64-bit integer (a decimal numeral equal to 2^64, hence out of range) does
not contribute 0 — the extractor stores 2^64-1, the value
`strconv.ParseUint` returns alongside its range error. -/
theorem setProcMetrics_range_failure_not_zero :
    parsesAsUInt64 (c3proc.Stat 22) = false ∧
    (setProcMetricsList c3proc).lookup "ps_vm" =
      some (.num 18446744073709551615) ∧
    (18446744073709551615 : Nat) ≠ 0 :=
  ⟨by decide, by rfl, by decide⟩

/-- C3 (amended): the extractor is total and returns all 15 declared keys
for every record; a parsed status field that is not a nonempty decimal
digit string contributes 0 (an out-of-range digit string instead
contributes 2^64-1), and ps_data, ps_code, the four I/O counters,
ps_cmd_line and ps_cmd are copied verbatim from the record. -/
theorem setProcMetrics_total_malformed_to_zero (proc : Proc)
    (h22 : isDigitString (proc.Stat 22) = false)
    (h23 : isDigitString (proc.Stat 23) = false)
    (h13 : isDigitString (proc.Stat 13) = false)
    (h14 : isDigitString (proc.Stat 14) = false)
    (h9 : isDigitString (proc.Stat 9) = false)
    (h11 : isDigitString (proc.Stat 11) = false)
    (h27 : isDigitString (proc.Stat 27) = false)
    (h28 : isDigitString (proc.Stat 28) = false) :
    (setProcMetricsList proc).map Prod.fst = metricNamesList.map Prod.fst ∧
    (setProcMetricsList proc).lookup "ps_vm" = some (.num 0) ∧
    (setProcMetricsList proc).lookup "ps_rss" = some (.num 0) ∧
    (setProcMetricsList proc).lookup "ps_cputime_user" = some (.num 0) ∧
    (setProcMetricsList proc).lookup "ps_cputime_system" = some (.num 0) ∧
    (setProcMetricsList proc).lookup "ps_pagefaults_min" = some (.num 0) ∧
    (setProcMetricsList proc).lookup "ps_pagefaults_maj" = some (.num 0) ∧
    (setProcMetricsList proc).lookup "ps_stacksize" = some (.num 0) ∧
    (setProcMetricsList proc).lookup "ps_data" = some (.num proc.VmData) ∧
    (setProcMetricsList proc).lookup "ps_code" = some (.num proc.VmCode) ∧
    (setProcMetricsList proc).lookup "ps_disk_octets_rchar" =
      some (.num (proc.ioc "rchar")) ∧
    (setProcMetricsList proc).lookup "ps_disk_octets_wchar" =
      some (.num (proc.ioc "wchar")) ∧
    (setProcMetricsList proc).lookup "ps_disk_ops_syscr" =
      some (.num (proc.ioc "syscr")) ∧
    (setProcMetricsList proc).lookup "ps_disk_ops_syscw" =
      some (.num (proc.ioc "syscw")) ∧
    (setProcMetricsList proc).lookup "ps_cmd_line" = some (.str proc.CmdLine) ∧
    (setProcMetricsList proc).lookup "ps_cmd" = some (.str proc.Cmd) := by
  have hz : ∀ s : String, isDigitString s = false → parseUint64 s = 0 := by
    intro s hs
    rw [parseUint64, hs]
    rfl
  refine ⟨setProcMetricsList_keys proc, ?_, ?_, ?_, ?_, ?_, ?_, ?_, ?_, ?_,
    ?_, ?_, ?_, ?_, ?_, ?_⟩
  all_goals rw [setProcMetricsList_eq, hz _ h22, hz _ h23, hz _ h13,
    hz _ h14, hz _ h9, hz _ h11, hz _ h27, hz _ h28]
  all_goals rfl

/-- Witness for C3 (amended): on a record whose every status field is the
malformed text "garbage", all parsed metrics are 0 and the verbatim fields
come straight from the record. -/
theorem setProcMetrics_total_malformed_to_zero_witness :
    (setProcMetricsList w3proc).map Prod.fst = metricNamesList.map Prod.fst ∧
    (setProcMetricsList w3proc).lookup "ps_vm" = some (.num 0) ∧
    (setProcMetricsList w3proc).lookup "ps_rss" = some (.num 0) ∧
    (setProcMetricsList w3proc).lookup "ps_cputime_user" = some (.num 0) ∧
    (setProcMetricsList w3proc).lookup "ps_cputime_system" = some (.num 0) ∧
    (setProcMetricsList w3proc).lookup "ps_pagefaults_min" = some (.num 0) ∧
    (setProcMetricsList w3proc).lookup "ps_pagefaults_maj" = some (.num 0) ∧
    (setProcMetricsList w3proc).lookup "ps_stacksize" = some (.num 0) ∧
    (setProcMetricsList w3proc).lookup "ps_data" = some (.num 5) ∧
    (setProcMetricsList w3proc).lookup "ps_code" = some (.num 6) ∧
    (setProcMetricsList w3proc).lookup "ps_disk_octets_rchar" =
      some (.num 11) ∧
    (setProcMetricsList w3proc).lookup "ps_disk_octets_wchar" =
      some (.num 12) ∧
    (setProcMetricsList w3proc).lookup "ps_disk_ops_syscr" = some (.num 13) ∧
    (setProcMetricsList w3proc).lookup "ps_disk_ops_syscw" = some (.num 14) ∧
    (setProcMetricsList w3proc).lookup "ps_cmd_line" =
      some (.str "cmdline") ∧
    (setProcMetricsList w3proc).lookup "ps_cmd" = some (.str "cmd") :=
  setProcMetrics_total_malformed_to_zero w3proc rfl rfl rfl rfl rfl rfl rfl rfl

/-- The ps_stacksize entry of the extracted metric map, in source form. -/
theorem setProc_lookup_stacksize (proc : Proc) :
    (setProcMetricsList proc).lookup "ps_stacksize" =
      some (.num (if parseUint64 (proc.Stat 27) > parseUint64 (proc.Stat 28)
        then parseUint64 (proc.Stat 27) - parseUint64 (proc.Stat 28)
        else parseUint64 (proc.Stat 28) - parseUint64 (proc.Stat 27))) := by
  rw [setProcMetricsList_eq]
  rfl

/-- C7: the extracted ps_stacksize equals max minus min of the two parsed
stack-boundary fields — the absolute difference of the two parsed values,
hence non-negative — and is unchanged when the two fields are swapped. -/
theorem setProcMetrics_stacksize_absdiff (proc : Proc) :
    (setProcMetricsList proc).lookup "ps_stacksize" =
      some (.num (max (parseUint64 (proc.Stat 27)) (parseUint64 (proc.Stat 28)) -
        min (parseUint64 (proc.Stat 27)) (parseUint64 (proc.Stat 28)))) ∧
    (setProcMetricsList proc).lookup "ps_stacksize" =
      some (.num (((parseUint64 (proc.Stat 27) : Int) -
        (parseUint64 (proc.Stat 28) : Int)).natAbs)) ∧
    (setProcMetricsList (swapStack proc)).lookup "ps_stacksize" =
      (setProcMetricsList proc).lookup "ps_stacksize" := by
  have habs1 : ∀ a b : Nat, (if a > b then a - b else b - a) = max a b - min a b := by
    intro a b
    split <;> omega
  have habs2 : ∀ a b : Nat,
      (if a > b then a - b else b - a) = ((a : Int) - b).natAbs := by
    intro a b
    split <;> omega
  have hswap : ∀ a b : Nat,
      (if b > a then b - a else a - b) = (if a > b then a - b else b - a) := by
    intro a b
    split <;> split <;> omega
  have h27 : (swapStack proc).Stat 27 = proc.Stat 28 := rfl
  have h28 : (swapStack proc).Stat 28 = proc.Stat 27 := rfl
  refine ⟨?_, ?_, ?_⟩
  · rw [setProc_lookup_stacksize, habs1]
  · rw [setProc_lookup_stacksize, habs2]
  · rw [setProc_lookup_stacksize proc, setProc_lookup_stacksize (swapStack proc),
      h27, h28, hswap]

/-- C6: the state aggregation always keys every known state; on the empty
snapshot every known state counts 0; and the resulting map is extensionally
identical under any permutation of the snapshot. -/
theorem aggregate_known_states_perm (states : List (String × String))
    (stats stats' : List Proc) (k : String) (hperm : stats.Perm stats') :
    (∀ s ∈ statesValues states,
      ((aggregate states stats).lookup s).isSome = true) ∧
    (∀ s ∈ statesValues states, (aggregate states []).lookup s = some 0) ∧
    (aggregate states stats).lookup k = (aggregate states stats').lookup k := by
  refine ⟨?_, ?_, ?_⟩
  · intro s hs
    rcases aggregate_lookup_known states stats s hs with ⟨v, hv⟩
    rw [hv]
    rfl
  · intro s hs
    unfold aggregate
    rw [List.foldl_nil]
    exact lookup_map_zero (statesValues states) s hs
  · unfold aggregate
    rw [lookup_foldl_bump, lookup_foldl_bump,
      hperm.countP_eq (fun p => statesLookup states p.State == k)]

/-- Witness for C6: on the concrete two-record snapshot and its swap, the
known state "running" is keyed, the empty snapshot counts it 0, and the two
lookups agree. -/
theorem aggregate_known_states_perm_witness :
    ((aggregate States w6statsA).lookup "running").isSome = true ∧
    (aggregate States []).lookup "running" = some 0 ∧
    (aggregate States w6statsA).lookup "running" =
      (aggregate States w6statsB).lookup "running" :=
  ⟨(aggregate_known_states_perm States w6statsA w6statsB "running"
      (List.Perm.swap (w4stateProc "S") (w4stateProc "R") [])).1 "running"
      (by decide),
   (aggregate_known_states_perm States w6statsA w6statsB "running"
      (List.Perm.swap (w4stateProc "S") (w4stateProc "R") [])).2.1 "running"
      (by decide),
   (aggregate_known_states_perm States w6statsA w6statsB "running"
      (List.Perm.swap (w4stateProc "S") (w4stateProc "R") [])).2.2⟩

theorem getMetricTypes_namespaces (states cfg : List (String × String)) :
    (getMetricTypes states cfg).map (fun m => m.Namespace_) =
      metricNamesList.map (fun d => metricPatternNs d.1) ++
      (statesValues states).map statePatternNs := by
  unfold getMetricTypes metricPatternNs statePatternNs
  rw [List.map_append, List.map_map, List.map_map]
  rfl

theorem metricPatternNs_injective : Function.Injective metricPatternNs := by
  intro a b h
  simpa [metricPatternNs, staticElem] using h

theorem statePatternNs_injective : Function.Injective statePatternNs := by
  intro a b h
  simpa [statePatternNs, staticElem] using h

theorem metricPatternNs_ne_statePatternNs (a s : String) :
    metricPatternNs a ≠ statePatternNs s := by
  intro h
  have hl := congrArg List.length h
  simp [metricPatternNs, statePatternNs] at hl

theorem count_map_inj {α β : Type} [BEq α] [LawfulBEq α] [BEq β] [LawfulBEq β]
    (f : α → β) (hf : Function.Injective f) :
    ∀ (l : List α) (x : α), (l.map f).count (f x) = l.count x := by
  intro l x
  induction l with
  | nil => rfl
  | cons hd tl ih =>
    simp only [List.map_cons, List.count_cons, ih]
    by_cases h : hd = x
    · subst h
      simp
    · have h1 : (f hd == f x) = false :=
        beq_eq_false_iff_ne.mpr (fun he => h (hf he))


      have h2 : (hd == x) = false := beq_eq_false_iff_ne.mpr h
      rw [h1, h2]

theorem count_eq_one_of_nodup_mem {α : Type} [BEq α] [LawfulBEq α] :
    ∀ {l : List α} {a : α}, l.Nodup → a ∈ l → l.count a = 1 := by
  intro l
  induction l with
  | nil => intro a _ h; cases h
  | cons hd tl ih =>
    intro a hnd hmem
    rcases List.nodup_cons.mp hnd with ⟨hhd, htl⟩
    rcases List.mem_cons.mp hmem with h | h
    · subst h
      have h0 : tl.count a = 0 := List.count_eq_zero.mpr hhd
      simp [List.count_cons, h0]
    · have hne : ¬ hd = a := fun he => hhd (he ▸ h)
      simp [List.count_cons, beq_eq_false_iff_ne.mpr hne, ih htl h]

/-- C8: discovery emits, per metric definition, exactly one pattern of the
dynamic shape with that metric name as leaf and, per known state, exactly
one fully static pattern with the state name as leaf; the produced patterns
are pairwise distinct and nothing else is produced. -/
theorem getMetricTypes_one_per_def_nodup (states cfg : List (String × String))
    (hnd : (statesValues states).Nodup) :
    (∀ d ∈ metricNamesList,
      ((getMetricTypes states cfg).map (fun m => m.Namespace_)).count
        (metricPatternNs d.1) = 1) ∧
    (∀ s ∈ statesValues states,
      ((getMetricTypes states cfg).map (fun m => m.Namespace_)).count
        (statePatternNs s) = 1) ∧
    ((getMetricTypes states cfg).map (fun m => m.Namespace_)).Nodup ∧
    (∀ p ∈ (getMetricTypes states cfg).map (fun m => m.Namespace_),
      (∃ d ∈ metricNamesList, p = metricPatternNs d.1) ∨
      (∃ s ∈ statesValues states, p = statePatternNs s)) := by
  have hMkeys : metricNamesList.map (fun d => metricPatternNs d.1) =
      (metricNamesList.map Prod.fst).map metricPatternNs := by
    rw [List.map_map]
    rfl
  refine ⟨?_, ?_, ?_, ?_⟩
  · intro d hd
    rw [getMetricTypes_namespaces, List.count_append]
    have h1 : (metricNamesList.map (fun d => metricPatternNs d.1)).count
        (metricPatternNs d.1) = 1 := by
      rw [hMkeys, count_map_inj metricPatternNs metricPatternNs_injective]
      exact count_eq_one_of_nodup_mem metricNames_keys_nodup
        (List.mem_map_of_mem Prod.fst hd)
    have h2 : (((statesValues states).map statePatternNs).count
        (metricPatternNs d.1)) = 0 := by
      rw [List.count_eq_zero]
      intro hmem
      rcases List.mem_map.mp hmem with ⟨s, _, hs⟩
      exact metricPatternNs_ne_statePatternNs d.1 s hs.symm
    rw [h1, h2]
  · intro s hs
    rw [getMetricTypes_namespaces, List.count_append]
    have h1 : ((metricNamesList.map (fun d => metricPatternNs d.1)).count
        (statePatternNs s)) = 0 := by
      rw [List.count_eq_zero]
      intro hmem
      rcases List.mem_map.mp hmem with ⟨d, _, hd⟩
      exact metricPatternNs_ne_statePatternNs d.1 s hd
    have h2 : (((statesValues states).map statePatternNs).count
        (statePatternNs s)) = 1 := by
      rw [count_map_inj statePatternNs statePatternNs_injective]
      exact count_eq_one_of_nodup_mem hnd hs
    rw [h1, h2]
  · rw [getMetricTypes_namespaces]
    refine List.Nodup.append ?_ (hnd.map statePatternNs_injective) ?_
    · rw [hMkeys]
      exact metricNames_keys_nodup.map metricPatternNs_injective
    · intro p hp1 hp2
      rcases List.mem_map.mp hp1 with ⟨d, _, hde⟩
      rcases List.mem_map.mp hp2 with ⟨s, _, hse⟩
      exact metricPatternNs_ne_statePatternNs d.1 s (hde.trans hse.symm)
  · intro p hp
    rw [getMetricTypes_namespaces] at hp
    rcases List.mem_append.mp hp with h | h
    · rcases List.mem_map.mp h with ⟨d, hdm, hde⟩
      exact Or.inl ⟨d, hdm, hde.symm⟩
    · rcases List.mem_map.mp h with ⟨s, hsm, hse⟩
      exact Or.inr ⟨s, hsm, hse.symm⟩

/-- Witness for C8: with the concrete state table, the `ps_vm` metric
pattern and the "running" state pattern each occur exactly once, and the
discovered namespaces are pairwise distinct. -/
theorem getMetricTypes_one_per_def_nodup_witness :
    ((getMetricTypes States [("proc_path", "/proc")]).map
      (fun m => m.Namespace_)).count (metricPatternNs "ps_vm") = 1 ∧
    ((getMetricTypes States [("proc_path", "/proc")]).map
      (fun m => m.Namespace_)).count (statePatternNs "running") = 1 ∧
    ((getMetricTypes States [("proc_path", "/proc")]).map
      (fun m => m.Namespace_)).Nodup :=
  ⟨(getMetricTypes_one_per_def_nodup States [("proc_path", "/proc")]
      (by decide)).1 ("ps_vm", ⟨"Virtual memory size in bytes", "B"⟩)
      (by decide),
   (getMetricTypes_one_per_def_nodup States [("proc_path", "/proc")]
      (by decide)).2.1 "running" (by decide),
   (getMetricTypes_one_per_def_nodup States [("proc_path", "/proc")]
      (by decide)).2.2.1⟩

/-- C2 counterexample: a dynamic requested pattern with exactly 4 elements
passes the length validation but drives the element access `ns[4]` out of
range — the resolution neither succeeds nor confines failures to patterns
shorter than 4 elements. -/
theorem collect_dynamic_len4_out_of_range :
    4 ≤ c2patDyn4.Namespace_.length ∧
    collectMetrics States cxFetchNil [c2patDyn4] 0 = .error .outOfRange :=
  ⟨by decide, by rfl⟩

/-- C2 (amended): a pattern shorter than 4 elements is rejected with the
length configuration error; a pattern of at least 4 elements resolves
without error provided it is not dynamic, or has at least 7 elements — the
dynamic dispatch reads elements 4, 5 and 6, so dynamic patterns of length
4 to 6 can fall out of range. -/
theorem resolveOne_bounds (states : List (String × String))
    (sc : List (String × Nat)) (stats : List Proc) (now : Nat)
    (mt : MetricType) :
    (mt.Namespace_.length < 4 →
      resolveOne states sc stats now mt =
        .error (.nsTooShort mt.Namespace_.length)) ∧
    (4 ≤ mt.Namespace_.length →
      nsIsDynamic mt.Namespace_ = false ∨ 7 ≤ mt.Namespace_.length →
      ∃ ms, resolveOne states sc stats now mt = .ok ms) :=
  ⟨fun hlen => resolveOne_short states sc stats now mt hlen,
   fun hlen hsafe => resolveOne_total states sc stats now mt hlen hsafe⟩

/-- Witness for C2 (amended): the 3-element pattern is rejected with the
length error, and the 4-element static pattern resolves without error. -/
theorem resolveOne_bounds_witness :
    resolveOne States [] [] 0 c5short3 = .error (.nsTooShort 3) ∧
    ∃ ms, resolveOne States [] [] 0 w4patRunning = .ok ms :=
  ⟨(resolveOne_bounds States [] [] 0 c5short3).1 (by decide),
   (resolveOne_bounds States [] [] 0 w4patRunning).2 (by decide) (Or.inl rfl)⟩

/-- C5 counterexample: a request list containing a 3-element pattern does
not return the length configuration error when an earlier dynamic pattern
falls out of range first — the call fails with the out-of-range panic
instead. -/
theorem collect_short_pattern_after_panic :
    c5short3.Namespace_.length < 4 ∧
    collectMetrics States cxFetchNil [c2patDyn4, c5short3] 0 =
      .error .outOfRange ∧
    CollectError.outOfRange ≠ .nsTooShort c5short3.Namespace_.length :=
  ⟨by decide, by rfl, by decide⟩

/-- C5 (amended): resolution fails atomically with no partial metrics: a
snapshot-fetch failure aborts the whole call with the data-source error,
and a requested pattern shorter than 4 elements aborts the whole call with
the length configuration error whenever every pattern before it resolves
without error — even when later patterns would resolve. -/
theorem collect_atomic_errors (states : List (String × String))
    (fetch : String → Except String (List Proc)) (now : Nat) :
    (∀ (mts : List MetricType) (mt0 : MetricType) (path : String) (e : String),
      mts.head? = some mt0 →
      getConfigItem mt0 "proc_path" = .ok path →
      fetch path = .error e →
      collectMetrics states fetch mts now = .error (.dataSource e)) ∧
    (∀ (pre post : List MetricType) (short mt0 : MetricType) (path : String)
        (stats : List Proc),
      (pre ++ short :: post).head? = some mt0 →
      getConfigItem mt0 "proc_path" = .ok path →
      fetch path = .ok stats →
      (∀ mt ∈ pre, ∃ ms,
        resolveOne states (aggregate states stats) stats now mt = .ok ms) →
      short.Namespace_.length < 4 →
      collectMetrics states fetch (pre ++ short :: post) now =
        .error (.nsTooShort short.Namespace_.length)) := by
  constructor
  · intro mts mt0 path e h0 hcfg hfetch
    unfold collectMetrics
    simp only [h0, hcfg, hfetch]
  · intro pre post short mt0 path stats h0 hcfg hfetch hpre hshort
    rw [collectMetrics_unfold_ok states fetch (pre ++ short :: post) mt0 path
      stats now h0 hcfg hfetch]
    refine resolveLoop_append_error states (aggregate states stats) stats now
      pre (short :: post) _ hpre ?_
    simp only [resolveLoop,
      resolveOne_short states (aggregate states stats) stats now short hshort]

/-- Witness for C5 (amended): a fetch failure yields the data-source error,
and a short second pattern (after a cleanly resolving first pattern) yields
the length configuration error. -/
theorem collect_atomic_errors_witness :
    collectMetrics States w5fetchErr [w4patRunning] 0 =
      .error (.dataSource "boom") ∧
    collectMetrics States cxFetchNil [w4patRunning, c5short3] 0 =
      .error (.nsTooShort 3) :=
  ⟨(collect_atomic_errors States w5fetchErr 0).1 [w4patRunning] w4patRunning
      "/proc" "boom" rfl rfl rfl,
   (collect_atomic_errors States cxFetchNil 0).2 [w4patRunning] []
      c5short3 w4patRunning "/proc" [] rfl rfl rfl
      (by
        intro mt hm
        rw [List.mem_singleton] at hm
        subst hm
        exact ⟨_, rfl⟩)
      (by decide)⟩

theorem emitForProc_stripTime (ns : List NamespaceElement) (leaf : String)
    (t t' : Nat) (proc : Proc) :
    (emitForProc ns leaf t proc).map stripTime =
      (emitForProc ns leaf t' proc).map stripTime := by
  unfold emitForProc
  generalize setProcMetricsList proc = L
  induction L with
  | nil => rfl
  | cons hd tl ih =>
    simp only [List.foldr_cons]
    by_cases h : hd.1 = leaf
    · simp only [if_pos h, List.map_cons, ih]
      rfl
    · simp only [if_neg h, ih]

theorem flatMap_emit_stripTime (ns : List NamespaceElement) (leaf : String)
    (t t' : Nat) :
    ∀ stats : List Proc,
      ((stats.flatMap (emitForProc ns leaf t)).map stripTime) =
      ((stats.flatMap (emitForProc ns leaf t')).map stripTime) := by
  intro stats
  induction stats with
  | nil => simp only [List.flatMap_nil, List.map_nil]
  | cons p ps ih =>
    simp only [List.flatMap_cons, List.map_append, ih,
      emitForProc_stripTime ns leaf t t' p]

theorem resolveOne_stripTime (states : List (String × String))
    (sc : List (String × Nat)) (stats : List Proc) (t t' : Nat)
    (mt : MetricType) :
    (resolveOne states sc stats t mt).map (List.map stripTime) =
      (resolveOne states sc stats t' mt).map (List.map stripTime) := by
  unfold resolveOne
  dsimp only
  repeat' split
  all_goals first
    | exact congrArg Except.ok
        (flatMap_emit_stripTime mt.Namespace_ _ t t' _)
    | rfl

theorem resolveLoop_stripTime (states : List (String × String))
    (sc : List (String × Nat)) (stats : List Proc) (t t' : Nat) :
    ∀ mts : List MetricType,
      (resolveLoop states sc stats t mts).map (List.map stripTime) =
      (resolveLoop states sc stats t' mts).map (List.map stripTime) := by
  intro mts
  induction mts with
  | nil => rfl
  | cons mt rest ih =>
    simp only [resolveLoop]
    have h1 := resolveOne_stripTime states sc stats t t' mt
    cases e1 : resolveOne states sc stats t mt with
    | error e =>
      cases e2 : resolveOne states sc stats t' mt with
      | error e' =>
        rw [e1, e2] at h1
        simp only [Except.map] at h1
        injection h1 with he
        subst he
        rfl
      | ok ms' =>
        rw [e1, e2] at h1
        simp only [Except.map] at h1
        exact Except.noConfusion h1
    | ok ms =>
      cases e2 : resolveOne states sc stats t' mt with
      | error e' =>
        rw [e1, e2] at h1
        simp only [Except.map] at h1
        exact Except.noConfusion h1
      | ok ms' =>
        rw [e1, e2] at h1
        simp only [Except.map] at h1
        injection h1 with hm
        cases r1 : resolveLoop states sc stats t rest with
        | error er =>
          have hr := ih
          rw [r1] at hr
          cases r2 : resolveLoop states sc stats t' rest with
          | error er' =>
            rw [r2] at hr
            simp only [Except.map] at hr
            injection hr with he
            subst he
            rfl
          | ok mr' =>
            rw [r2] at hr
            simp only [Except.map] at hr
            exact Except.noConfusion hr
        | ok mr =>
          cases r2 : resolveLoop states sc stats t' rest with
          | error er' =>
            have hr := ih
            rw [r1, r2] at hr
            simp only [Except.map] at hr
            exact Except.noConfusion hr
          | ok mr' =>
            have hr := ih
            rw [r1, r2] at hr
            simp only [Except.map] at hr
            injection hr with hrm
            simp only [Except.map, List.map_append, hm, hrm]

/-- C9: resolution is a pure function of the state table, the data source,
and the requested patterns — with the wall clock made an explicit argument,
two invocations differing only in the clock produce the same sequence of
metrics (same namespaces, values, units, descriptions, same order) up to
the stored timestamps. -/
theorem collect_deterministic_modulo_time (states : List (String × String))
    (fetch : String → Except String (List Proc)) (mts : List MetricType)
    (t t' : Nat) :
    (collectMetrics states fetch mts t).map (List.map stripTime) =
      (collectMetrics states fetch mts t').map (List.map stripTime) := by
  unfold collectMetrics
  repeat' split
  all_goals first
    | exact resolveLoop_stripTime states _ _ t t' mts
    | rfl

/-- C10: the configuration value is read from element 0 of the requested
pattern list before any validation or fetch: on the empty list the access
is out of range (a Go panic), and on a non-empty list whose head lacks the
`proc_path` config item the call fails with the config-item error without
ever consulting the data source — the result is the same for any two data
sources. -/
theorem collect_reads_head_config_before_fetch :
    (∀ (states : List (String × String))
       (fetch : String → Except String (List Proc)) (now : Nat),
      collectMetrics states fetch [] now = .error .outOfRange) ∧
    (∀ (states : List (String × String))
       (fetch fetch' : String → Except String (List Proc))
       (mts : List MetricType) (mt0 : MetricType) (now : Nat),
      mts.head? = some mt0 →
      getConfigItem mt0 "proc_path" = .error () →
      collectMetrics states fetch mts now = .error .cfgItemMissing ∧
      collectMetrics states fetch mts now =
        collectMetrics states fetch' mts now) := by
  constructor
  · intro states fetch now
    rfl
  · intro states fetch fetch' mts mt0 now h0 hcfg
    constructor
    · unfold collectMetrics
      simp only [h0, hcfg]
    · unfold collectMetrics
      simp only [h0, hcfg]

/-- Witness for C10: the empty request list panics out of range; with a
config-less head pattern the call fails with the config-item error and the
result is identical under a succeeding and a failing data source. -/
theorem collect_reads_head_config_before_fetch_witness :
    collectMetrics States cxFetchNil [] 0 = .error .outOfRange ∧
    (collectMetrics States cxFetchNil [w10mtNoCfg] 0 =
       .error .cfgItemMissing ∧
     collectMetrics States cxFetchNil [w10mtNoCfg] 0 =
       collectMetrics States w5fetchErr [w10mtNoCfg] 0) :=
  ⟨collect_reads_head_config_before_fetch.1 States cxFetchNil 0,
   collect_reads_head_config_before_fetch.2 States cxFetchNil w5fetchErr
     [w10mtNoCfg] w10mtNoCfg 0 rfl rfl⟩

/-- C1: for a fully-dynamic requested pattern — the pid-position element 4
and the name-position element 5 both dynamic — whose leaf element 6 carries
a declared metric name, resolution emits exactly one concrete metric per
process of the snapshot, in snapshot order: the pid element is overwritten
with the decimal process id, the name element with the last `/`-separated
segment of the command line truncated at its first NUL byte, the value is
the extractor's entry for the metric name, and unit and description are
copied from the metric catalog. -/
theorem collect_fullyDynamic_expands_per_process
    (states : List (String × String))
    (fetch : String → Except String (List Proc)) (mt : MetricType)
    (path : String) (stats : List Proc) (now : Nat)
    (e4 e5 e6 : NamespaceElement) (lbl : label)
    (hcfg : getConfigItem mt "proc_path" = .ok path)
    (hfetch : fetch path = .ok stats)
    (h4 : mt.Namespace_.get? 4 = some e4) (hd4 : e4.IsDynamic = true)
    (h5 : mt.Namespace_.get? 5 = some e5) (hd5 : e5.IsDynamic = true)
    (h6 : mt.Namespace_.get? 6 = some e6)
    (hname : metricNamesList.lookup e6.Value = some lbl) :
    collectMetrics states fetch [mt] now =
      .ok (stats.map (fun proc =>
        { Namespace_ := (setElemValue (setElemValue mt.Namespace_ 4
            (toString proc.Pid)) 5 (cmdLastSegment proc.CmdLine)),
          Data_ := ((setProcMetricsList proc).lookup e6.Value).getD (.num 0),
          Timestamp_ := now,
          Unit_ := lbl.unit,
          Description_ := lbl.description,
          Config_ := [] })) := by
  rw [collectMetrics_unfold_ok states fetch [mt] mt path stats now rfl hcfg
    hfetch]
  rw [resolveLoop_single states (aggregate states stats) stats now mt _
    (resolveOne_fullyDynamic states (aggregate states stats) stats now mt
      e4 e5 e6 h4 hd4 h5 hd5 h6)]
  have hlbl : lookupLabel e6.Value = lbl := by
    rw [lookupLabel, hname]
    rfl
  congr 1
  refine flatMap_eq_map_of_single _ _ (fun proc => ?_) stats
  have hsm := setProc_lookup_of_declared proc e6.Value lbl hname
  rw [emitForProc_eq mt.Namespace_ e6.Value now proc _ hsm, hlbl]

/-- Witness for C1: on the spec §8 snapshot, the fully-dynamic `ps_vm`
pattern resolves to exactly the two metrics (pid "100", name "foo", 4096)
and (pid "200", name "bar", 8192). -/
theorem collect_fullyDynamic_expands_per_process_witness :
    collectMetrics States w1fetch [w1pattern] 7 =
      .ok [{ Namespace_ := [staticElem "intel", staticElem "procfs",
               staticElem "processes", staticElem "pid",
               { Value := "100", Description := "pid of the running process",
                 Name := "process_id" },
               { Value := "foo", Description := "name of the running process",
                 Name := "process_name" },
               staticElem "ps_vm"],
             Data_ := .num 4096, Timestamp_ := 7, Unit_ := "B",
             Description_ := "Virtual memory size in bytes", Config_ := [] },
           { Namespace_ := [staticElem "intel", staticElem "procfs",
               staticElem "processes", staticElem "pid",
               { Value := "200", Description := "pid of the running process",
                 Name := "process_id" },
               { Value := "bar", Description := "name of the running process",
                 Name := "process_name" },
               staticElem "ps_vm"],
             Data_ := .num 8192, Timestamp_ := 7, Unit_ := "B",
             Description_ := "Virtual memory size in bytes", Config_ := [] }] :=
  (collect_fullyDynamic_expands_per_process States w1fetch w1pattern "/proc"
    [w1procFoo, w1procBar] 7
    (dynamicElem "process_id" "pid of the running process")
    (dynamicElem "process_name" "name of the running process")
    (staticElem "ps_vm") ⟨"Virtual memory size in bytes", "B"⟩
    rfl rfl rfl rfl rfl rfl rfl rfl).trans (by rfl)
